import Mathlib

/-!
Verification of the document ingestion / classification pipeline of the
startup-law-mvp repository (server side, `app/api/routes/documents.py`,
`app/db/init_data.py`, `app/models/models.py`).

The Python source is shallowly embedded: SQLAlchemy rows become Lean
structures, the mutable session becomes explicit state passing, each
`db.commit()` is recorded as a committed snapshot, and the external
collaborators (`document_processor`, `llm_service`) — which live outside
the embedded source — are passed in as explicit outcome parameters, so
that one run of a handler is a pure function of the document state and
of the behaviour of its external calls.
-/

namespace StartupLaw

/-- The `processing_status` column of `documents`
(`models.py`: "pending, processing, completed, failed"). -/
inductive Status where
  | pending
  | processing
  | completed
  | failed
  deriving DecidableEq, Repr

/-- A row of `document_categories` (`models.py`, class DocumentCategory):
id, unique name, optional description, JSON keyword list. -/
structure Category where
  id : Nat
  name : String
  description : Option String
  keywords : List String
  deriving DecidableEq, Repr

/-- A row of `documents` (`models.py`, class Document), restricted to the
columns the handlers under verification read or write.  Nullable columns
are `Option`; `Float` confidence scores are embedded as `Rat`;
`DateTime` timestamps as abstract `Nat` instants. -/
structure Document where
  id : Nat
  user_id : Nat
  category_id : Option Nat
  filename : String
  original_filename : String
  file_path : String
  file_size : Nat
  mime_type : Option String
  extracted_text : Option String
  summary : Option String
  key_entities : Option (List String)
  classification_confidence : Option Rat
  classification_reasoning : Option String
  suggested_categories : Option (List (String × Rat))
  processing_status : Status
  processing_error : Option String
  processed_at : Option Nat
  deriving DecidableEq, Repr

/-- The dict returned by `llm_service.classify_document`.  The service is
an external collaborator; the route only reads it with `.get`, so every
field may be absent — each is an `Option`. -/
structure ClassificationResult where
  category_name : Option String
  confidence : Option Rat
  reasoning : Option String
  suggested_categories : Option (List (String × Rat))
  key_entities : Option (List String)
  summary : Option String
  deriving DecidableEq, Repr

/-- The behaviour of the two awaited external calls inside one run of
`process_document_async`:
either `document_processor.extract_text` raises, or it returns text and
`llm_service.classify_document` raises, or both succeed (and the run
takes its completion timestamp `now`). -/
inductive StepOutcome where
  | extractFails (err : String)
  | classifyFails (text : String) (err : String)
  | success (text : String) (cr : ClassificationResult) (now : Nat)
  deriving DecidableEq, Repr

/-- `db.query(DocumentCategory).filter(DocumentCategory.name == n).first()`. -/
def findCategoryByName (cats : List Category) (n : String) : Option Category :=
  cats.find? (fun c => c.name == n)

/-- The six classification columns of a document, bundled so that
"classification fields are left untouched" is one equation. -/
def classificationFields (d : Document) :
    Option Nat × Option Rat × Option String ×
    Option (List (String × Rat)) × Option (List String) × Option String :=
  (d.category_id, d.classification_confidence, d.classification_reasoning,
   d.suggested_categories, d.key_entities, d.summary)

/-- The state committed by `document.processing_status = "processing";
db.commit()` (documents.py lines 486-488).  No status guard appears in
the source: the assignment is unconditional. -/
def setProcessing (d : Document) : Document :=
  { d with processing_status := .processing }

/-- The successful-run update (documents.py lines 491-524): extracted
text, category lookup (the id is written only when the name resolves,
otherwise left as it was), classification fields read with `.get`
defaults, status `completed` and `processed_at`, all flushed by the
single `db.commit()` at line 524.  `processing_error` is not assigned. -/
def applySuccess (cats : List Category) (d : Document)
    (text : String) (cr : ClassificationResult) (now : Nat) : Document :=
  let withText := { d with extracted_text := some text }
  let withCat :=
    match cr.category_name with
    | some n =>
        match findCategoryByName cats n with
        | some c => { withText with category_id := some c.id }
        | none => withText
    | none => withText
  { withCat with
      classification_confidence := some (cr.confidence.getD 0)
      classification_reasoning := cr.reasoning
      suggested_categories := some (cr.suggested_categories.getD [])
      key_entities := some (cr.key_entities.getD [])
      summary := cr.summary
      processing_status := .completed
      processed_at := some now }

/-- The `except` branch (documents.py lines 528-536): the document is
re-queried (the session returns the same in-memory object, so an
`extracted_text` assignment made before the exception is still pending
and is flushed by this commit), status `failed`, error message written;
no classification column is assigned. -/
def applyFailure (d : Document) (textSoFar : Option String) (err : String) :
    Document :=
  let d := match textSoFar with
           | some t => { d with extracted_text := some t }
           | none => d
  { d with processing_status := .failed, processing_error := some err }

/-- One run of `process_document_async` on a document that the initial
query found, as the final committed document state. -/
def process_document_async (cats : List Category) (d : Document)
    (o : StepOutcome) : Document :=
  let d1 := setProcessing d
  match o with
  | .extractFails err => applyFailure d1 none err
  | .classifyFails text err => applyFailure d1 (some text) err
  | .success text cr now => applySuccess cats d1 text cr now

/-- The sequence of document states made durable by the run's
`db.commit()` calls, in order: the status-update commit (line 488) and
the terminal commit (line 524 on success, line 536 on failure). -/
def processCommits (cats : List Category) (d : Document)
    (o : StepOutcome) : List Document :=
  [setProcessing d, process_document_async cats d o]

/-- The statuses a poller can observe across one run: the pre-run status
followed by the status of each committed state. -/
def statusTrace (cats : List Category) (d : Document)
    (o : StepOutcome) : List Status :=
  d.processing_status :: (processCommits cats d o).map Document.processing_status

/-- The body of a query request (schema QueryRequest).  Python treats a
missing filter and an empty filter list the same way (`if
query_request.document_ids:` is false for both None and []), so both are
embedded as the empty list. -/
structure QueryRequest where
  query : String
  document_ids : List Nat
  category_ids : List Nat
  deriving DecidableEq, Repr

/-- One entry of the source_documents list built by the query route:
document id, original filename, resolved category name. -/
structure SourceDoc where
  id : Nat
  filename : String
  category : String
  deriving DecidableEq, Repr

/-- The dict returned by `llm_service.query_documents`; an external
collaborator read only with `.get`, so every field may be absent. -/
structure LLMQueryResponse where
  answer : Option String
  confidence : Option Rat
  reasoning : Option String
  suggestions : Option (List String)
  deriving DecidableEq, Repr

/-- The response body of the query route.  Modelled from the spec: the
pydantic schema module (app/schemas/document.py) is not part of the
embedded source; the field set follows the Query Result of the data
model and the two constructor calls in the route, and the suggestions
field — omitted by the no-documents branch — defaults to the empty list
per the defaulting rules of the spec. -/
structure QueryResponse where
  query : String
  response : String
  confidence_score : Rat
  source_documents : List SourceDoc
  reasoning : Option String
  suggestions : List String
  deriving DecidableEq, Repr

/-- The arguments of one `llm_service.query_documents` invocation. -/
structure QueryCall where
  question : String
  context : List String
  deriving DecidableEq, Repr

/-- The ORM relationship `document.category`: resolves the foreign key
against the category table; None when category_id is null. -/
def resolveCategory (cats : List Category) (d : Document) : Option Category :=
  d.category_id.bind (fun i => cats.find? (fun c => c.id == i))

/-- `doc.category.name if doc.category else "Uncategorized"`. -/
def categoryNameOrDefault (cats : List Category) (d : Document) : String :=
  match resolveCategory cats d with
  | some c => c.name
  | none => "Uncategorized"

/-- Python truthiness of `doc.extracted_text`: false for both None and
the empty string. -/
def hasText (d : Document) : Bool :=
  d.extracted_text.getD "" != ""

/-- The character slice `s[:n]` of a Python string: the first n
characters. -/
def strSlice (s : String) (n : Nat) : String :=
  String.mk (s.data.take n)

/-- The filtered document set of the query route (documents.py lines
282-295): the requesting user's completed documents, narrowed by the
document-id filter and the category-id filter when those lists are
non-empty (SQL `category_id IN (...)` is false on a null category_id). -/
def queryFilteredDocs (docs : List Document) (uid : Nat)
    (req : QueryRequest) : List Document :=
  let base := docs.filter
    (fun d => d.user_id == uid && d.processing_status == Status.completed)
  let base :=
    if req.document_ids.isEmpty then base
    else base.filter (fun d => req.document_ids.contains d.id)
  if req.category_ids.isEmpty then base
  else base.filter (fun d =>
    match d.category_id with
    | some c => req.category_ids.contains c
    | none => false)

/-- The documents actually used as context: the first 5 filtered
documents whose extracted_text is truthy (documents.py line 310-311). -/
def contextDocs (docs : List Document) (uid : Nat)
    (req : QueryRequest) : List Document :=
  ((queryFilteredDocs docs uid req).take 5).filter hasText

/-- The context chunk taken from one used document: its first 2000
characters (documents.py line 313). -/
def contextChunk (d : Document) : String :=
  strSlice (d.extracted_text.getD "") 2000

/-- The source citation built for one used document (documents.py lines
314-322). -/
def sourceOfDoc (cats : List Category) (d : Document) : SourceDoc :=
  { id := d.id, filename := d.original_filename
    category := categoryNameOrDefault cats d }

/-- The fixed response of the empty-set short circuit (documents.py
lines 297-304). -/
def noDocsResponse (q : String) : QueryResponse :=
  { query := q
    response :=
      "No documents found to query. Please upload and process documents first."
    confidence_score := 0
    source_documents := []
    reasoning := some "No documents available for analysis"
    suggestions := [] }

/-- One run of the query route body on the requesting user's document
table, with the oracle passed in as a function; the second component
records the oracle invocation made (none when the oracle was never
called). -/
def query_documents (cats : List Category) (docs : List Document)
    (uid : Nat) (req : QueryRequest)
    (oracle : QueryCall → LLMQueryResponse) :
    QueryResponse × Option QueryCall :=
  if (queryFilteredDocs docs uid req).isEmpty then
    (noDocsResponse req.query, none)
  else
    let used := contextDocs docs uid req
    let call : QueryCall :=
      { question := req.query, context := used.map contextChunk }
    let r := oracle call
    ({ query := req.query
       response := r.answer.getD "No response generated"
       confidence_score := r.confidence.getD 0
       source_documents := used.map (sourceOfDoc cats)
       reasoning := r.reasoning
       suggestions := r.suggestions.getD [] },
     some call)

/-- The classification_result payload of the status route. -/
structure DocumentClassificationResult where
  category_id : Option Nat
  category_name : Option String
  confidence : Rat
  reasoning : Option String
  suggested_categories : Option (List (String × Rat))
  key_entities : Option (List String)
  summary : Option String
  deriving DecidableEq, Repr

/-- The response body of the status route. -/
structure DocumentProcessingStatus where
  document_id : Nat
  status : Status
  progress : Rat
  error_message : Option String
  classification_result : Option DocumentClassificationResult
  deriving DecidableEq, Repr

/-- The progress_map of the status route (documents.py lines 239-244). -/
def progressOfStatus : Status → Rat
  | .pending => 0
  | .processing => 1 / 2
  | .completed => 1
  | .failed => 0

/-- The status route body for a found document (documents.py lines
238-264): the classification_result is populated only when the status
is completed and the ORM category relationship resolves; the confidence
falls back to 0.0 through the `or 0.0` of the route. -/
def get_document_status (cats : List Category) (d : Document) :
    DocumentProcessingStatus :=
  let classification_result :=
    if d.processing_status = Status.completed ∧
        (resolveCategory cats d).isSome then
      some { category_id := d.category_id
             category_name := (resolveCategory cats d).map Category.name
             confidence := d.classification_confidence.getD 0
             reasoning := d.classification_reasoning
             suggested_categories := d.suggested_categories
             key_entities := d.key_entities
             summary := d.summary }
    else none
  { document_id := d.id
    status := d.processing_status
    progress := progressOfStatus d.processing_status
    error_message := d.processing_error
    classification_result := classification_result }

/-- A sample document used to evaluate the handlers at concrete inputs;
the status and error field vary per scenario. -/
def sampleDoc (s : Status) (err : Option String) : Document :=
  { id := 1
    user_id := 7
    category_id := none
    filename := "a.txt"
    original_filename := "a.txt"
    file_path := "/uploads/7/a.txt"
    file_size := 12
    mime_type := some "text/plain"
    extracted_text := none
    summary := none
    key_entities := none
    classification_confidence := none
    classification_reasoning := none
    suggested_categories := none
    processing_status := s
    processing_error := err
    processed_at := none }

/-- A sample fully-populated classification-oracle result. -/
def sampleCR : ClassificationResult :=
  { category_name := some "Formation"
    confidence := some (9 / 10)
    reasoning := some "looks like bylaws"
    suggested_categories := some [("Governance", 1 / 2)]
    key_entities := some ["Acme Inc."]
    summary := some "bylaws of Acme" }

/-- The behaviour of one file of a bulk upload, as the route observes
it: validation fails with a reason, or some step of
read/save/persist/schedule raises, or the file is persisted under a
fresh document id. -/
inductive FileBehavior where
  | valid (docId : Nat)
  | invalid (reason : String)
  | raises (err : String)
  deriving DecidableEq, Repr

/-- One candidate upload of a bulk request: its declared filename and
the behaviour its processing exhibits. -/
structure BulkFile where
  filename : String
  behavior : FileBehavior
  deriving DecidableEq, Repr

/-- Whether a bulk file fails (by validation or by a raised error). -/
def FileBehavior.fails : FileBehavior → Bool
  | .valid _ => false
  | .invalid _ => true
  | .raises _ => true

/-- The response of the bulk upload route (schema BulkUploadResponse,
fields as constructed at documents.py lines 154-161). -/
structure BulkUploadResponse where
  uploaded_files : List String
  failed_files : List (String × String)
  processing_jobs : List Nat
  total_files : Nat
  success_count : Nat
  failure_count : Nat
  deriving DecidableEq, Repr

/-- The per-file loop of the bulk route (documents.py lines 109-152):
each file is validated, persisted and scheduled independently; a
validation failure or a raised exception is recorded locally in
failed_files and the loop continues.  Returns (uploaded_files,
failed_files, committed document ids, scheduled background-task ids),
each in input order. -/
def bulkLoop : List BulkFile →
    List String × List (String × String) × List Nat × List Nat
  | [] => ([], [], [], [])
  | f :: rest =>
      let r := bulkLoop rest
      match f.behavior with
      | .valid docId =>
          (f.filename :: r.1, r.2.1, docId :: r.2.2.1, docId :: r.2.2.2)
      | .invalid reason =>
          (r.1, (f.filename, reason) :: r.2.1, r.2.2.1, r.2.2.2)
      | .raises err =>
          (r.1, (f.filename, err) :: r.2.1, r.2.2.1, r.2.2.2)

/-- The bulk route body: the response built from the loop results, plus
the list of scheduled background tasks. -/
def upload_documents_bulk (files : List BulkFile) :
    BulkUploadResponse × List Nat :=
  let r := bulkLoop files
  ({ uploaded_files := r.1
     failed_files := r.2.1
     processing_jobs := r.2.2.1
     total_files := files.length
     success_count := r.1.length
     failure_count := r.2.1.length },
   r.2.2.2)

/-- The filename a bulk file contributes to uploaded_files (none when it
fails). -/
def okName (f : BulkFile) : Option String :=
  match f.behavior with
  | .valid _ => some f.filename
  | _ => none

/-- The (filename, error) entry a bulk file contributes to failed_files
(none when it succeeds). -/
def failEntry (f : BulkFile) : Option (String × String) :=
  match f.behavior with
  | .invalid r => some (f.filename, r)
  | .raises e => some (f.filename, e)
  | .valid _ => none

/-- The document id a bulk file contributes to processing_jobs (none
when it fails). -/
def okId (f : BulkFile) : Option Nat :=
  match f.behavior with
  | .valid i => some i
  | _ => none

/-- A category seed entry of init_data.py. -/
structure CategorySeed where
  name : String
  description : String
  keywords : List String
  deriving DecidableEq, Repr

/-- The seven default category seeds of init_data.py (names only are
load-bearing for the idempotence claims; descriptions and keyword lists
are carried verbatim in abbreviated form). -/
def default_categories : List CategorySeed :=
  [{ name := "Formation"
     description := "Documents related to company formation and incorporation"
     keywords := ["articles of incorporation", "certificate of incorporation",
       "bylaws", "operating agreement", "partnership agreement",
       "LLC agreement", "charter", "formation", "incorporation"] },
   { name := "Governance"
     description := "Corporate governance documents including board resolutions and policies"
     keywords := ["board resolution", "board meeting", "minutes",
       "governance policy", "committee charter", "director",
       "shareholder agreement", "voting"] },
   { name := "Directors & Officers"
     description := "Documents related to directors, officers, and their responsibilities"
     keywords := ["director", "officer", "D&O insurance", "indemnification",
       "fiduciary duty", "appointment", "resignation", "liability"] },
   { name := "Cap Table"
     description := "Equity and ownership related documents"
     keywords := ["stock certificate", "equity", "shares", "option grant",
       "warrant", "convertible", "cap table", "ownership", "vesting",
       "securities"] },
   { name := "Employees"
     description := "Employment and HR related documents"
     keywords := ["employment agreement", "offer letter", "employee handbook",
       "non-disclosure", "non-compete", "severance", "benefits", "payroll"] },
   { name := "Intellectual Property"
     description := "IP related documents including patents, trademarks, and assignments"
     keywords := ["patent", "trademark", "copyright", "IP assignment",
       "invention assignment", "trade secret", "license",
       "intellectual property"] },
   { name := "Compliance"
     description := "Regulatory and compliance documents"
     keywords := ["compliance", "regulatory filing", "license", "permit",
       "audit", "SOX", "GDPR", "privacy policy", "regulation", "filing"] }]

/-- The seeding loop of init_document_categories: for each seed, query
the table for an existing category of that name and add the seed only
when none exists (session autoflush makes a row added earlier in the
loop visible to later queries, so the membership check runs against the
accumulated table).  New rows take consecutive fresh ids from nextId. -/
def seedLoop : List CategorySeed → List Category → Nat → List Category × Nat
  | [], db, nextId => (db, nextId)
  | c :: rest, db, nextId =>
      if db.any (fun k => k.name == c.name) then
        seedLoop rest db nextId
      else
        seedLoop rest
          (db ++ [{ id := nextId, name := c.name
                    description := some c.description
                    keywords := c.keywords }])
          (nextId + 1)

/-- init_document_categories (init_data.py lines 122-141): seed the
default categories into the table, skipping any name already present. -/
def init_document_categories (db : List Category) (nextId : Nat) :
    List Category :=
  (seedLoop default_categories db nextId).1

/-- A sample category table with the one category "Formation". -/
def sampleCats : List Category :=
  [{ id := 1, name := "Formation"
     description := some "Documents related to company formation"
     keywords := ["bylaws", "incorporation"] }]

/-- A sample completed, categorized document with extracted text, owned
by user 7. -/
def sampleCompletedDoc : Document :=
  { sampleDoc .completed none with
      extracted_text := some "hello world"
      category_id := some 1
      classification_confidence := some (9 / 10)
      processed_at := some 5 }

/-- A sample query request with no filters. -/
def sampleReq : QueryRequest :=
  { query := "what are these documents", document_ids := [], category_ids := [] }

/-- A sample query-oracle reply missing every field. -/
def emptyLLMReply : LLMQueryResponse :=
  { answer := none, confidence := none, reasoning := none, suggestions := none }

/-- A sample classification-oracle result naming a category unknown to
the category table. -/
def sampleCRUnknown : ClassificationResult :=
  { sampleCR with category_name := some "Unknown Kind" }

end StartupLaw

namespace StartupLaw

/-- Helper: every run of the processing step ends in a terminal status,
whatever the starting status and outcome. -/
lemma run_ends_terminal (cats : List Category) (d : Document)
    (o : StepOutcome) :
    (process_document_async cats d o).processing_status = Status.completed ∨
    (process_document_async cats d o).processing_status = Status.failed := by
  cases o with
  | extractFails err =>
      right; simp [process_document_async, applyFailure]
  | classifyFails text err =>
      right; simp [process_document_async, applyFailure]
  | success text cr now =>
      left; simp [process_document_async, applySuccess]

/-! ## C1 — the pending guard of the processing step -/

/-- C1 counterexample: the claim states that invoking the background
processing step on a document whose status is not pending is a no-op
leaving the state unchanged.  On the code it is false: the step assigns
processing_status unconditionally, so running it on an
already-processing document changes the document (here all the way to
completed). -/
theorem C1_counterexample :
    (sampleDoc .processing none).processing_status ≠ Status.pending ∧
    process_document_async [] (sampleDoc .processing none)
        (.success "hello" sampleCR 5) ≠ sampleDoc .processing none ∧
    (process_document_async [] (sampleDoc .processing none)
        (.success "hello" sampleCR 5)).processing_status = Status.completed := by
  refine ⟨by decide, by decide, by decide⟩

/-- C1 (amended): the background processing step has no status guard.
For every found document, whatever its current status, the first commit
of the run sets processing_status to processing, and the run then drives
the document to a terminal state; invoking the step on a non-pending
document therefore re-processes it instead of observing a no-op. -/
theorem C1_no_pending_guard (cats : List Category) (d : Document)
    (o : StepOutcome) :
    (setProcessing d).processing_status = Status.processing ∧
    ((process_document_async cats d o).processing_status = Status.completed ∨
     (process_document_async cats d o).processing_status = Status.failed) :=
  ⟨rfl, run_ends_terminal cats d o⟩

/-! ## C2 — the status path and terminality -/

/-- C2 counterexample: the claim states that completed and failed are
terminal even against a re-invocation of the background processing step.
On the code a re-invocation on a failed document re-runs the pipeline:
here it ends completed, leaving the failed state. -/
theorem C2_counterexample :
    (sampleDoc .failed (some "boom")).processing_status = Status.failed ∧
    (process_document_async [] (sampleDoc .failed (some "boom"))
        (.success "hello" sampleCR 5)).processing_status = Status.completed := by
  refine ⟨by decide, by decide⟩

/-- C2 (amended): within a single invocation of the background
processing step on a pending document, the observable statuses follow
exactly pending, then processing, then one terminal status (completed or
failed).  Terminal states are not preserved against re-invocation: the
step re-enters processing from any status (see the C1 analysis). -/
theorem C2_single_run_path (cats : List Category) (d : Document)
    (o : StepOutcome) (h : d.processing_status = Status.pending) :
    ∃ t, statusTrace cats d o = [Status.pending, Status.processing, t] ∧
      (t = Status.completed ∨ t = Status.failed) := by
  refine ⟨(process_document_async cats d o).processing_status, ?_, ?_⟩
  · simp [statusTrace, processCommits, setProcessing, h]
  · exact run_ends_terminal cats d o

/-- C2 witness: the single-run path theorem evaluated on a concrete
pending document and a successful run. -/
theorem C2_single_run_path_witness :
    (sampleDoc .pending none).processing_status = Status.pending ∧
    ∃ t, statusTrace [] (sampleDoc .pending none) (.success "hello" sampleCR 5)
          = [Status.pending, Status.processing, t] ∧
        (t = Status.completed ∨ t = Status.failed) :=
  ⟨by decide,
   C2_single_run_path [] (sampleDoc .pending none)
     (.success "hello" sampleCR 5) (by decide)⟩

/-! ## C3 — atomicity of the completing commit -/

/-- C3 counterexample: the claim states that every reachable completed
document has a null processing_error.  On the code the success path
never assigns processing_error, so re-running the processing step on a
previously-failed document (reachable, since the step has no status
guard) yields a completed document whose processing_error is still the
stale non-null message. -/
theorem C3_counterexample :
    (process_document_async [] (sampleDoc .failed (some "boom"))
        (.success "hello" sampleCR 5)).processing_status = Status.completed ∧
    (process_document_async [] (sampleDoc .failed (some "boom"))
        (.success "hello" sampleCR 5)).processing_error ≠ none := by
  refine ⟨by decide, by decide⟩

/-- C3 (amended): the processing-to-completed transition writes the
extracted text, all classification fields (with the .get defaults of the
route) and the completion timestamp in the single terminal commit, and
no committed state of the run is observable as completed other than that
full update; the classification fields come from the single oracle call
of the run.  processing_error is not written by the success path: it is
null for every completing document whose error field was null before the
run, but a document re-processed after an earlier failure keeps its
stale non-null error even when completed. -/
theorem C3_completed_commit_atomic (cats : List Category) (d : Document)
    (text : String) (cr : ClassificationResult) (now : Nat)
    (h : d.processing_error = none) :
    (process_document_async cats d (.success text cr now)).processing_status
        = Status.completed ∧
    (process_document_async cats d (.success text cr now)).processing_error
        = none ∧
    (process_document_async cats d (.success text cr now)).extracted_text
        = some text ∧
    (process_document_async cats d
        (.success text cr now)).classification_confidence
        = some (cr.confidence.getD 0) ∧
    (process_document_async cats d
        (.success text cr now)).classification_reasoning = cr.reasoning ∧
    (process_document_async cats d
        (.success text cr now)).suggested_categories
        = some (cr.suggested_categories.getD []) ∧
    (process_document_async cats d (.success text cr now)).key_entities
        = some (cr.key_entities.getD []) ∧
    (process_document_async cats d (.success text cr now)).summary
        = cr.summary ∧
    (process_document_async cats d (.success text cr now)).processed_at
        = some now ∧
    ∀ c ∈ processCommits cats d (.success text cr now),
      c.processing_status = Status.completed →
      c = process_document_async cats d (.success text cr now) := by
  have hfields :
      ∀ e : Document,
        ((applySuccess cats e text cr now).processing_status = Status.completed ∧
         (applySuccess cats e text cr now).processing_error = e.processing_error ∧
         (applySuccess cats e text cr now).extracted_text = some text ∧
         (applySuccess cats e text cr now).classification_confidence
            = some (cr.confidence.getD 0) ∧
         (applySuccess cats e text cr now).classification_reasoning
            = cr.reasoning ∧
         (applySuccess cats e text cr now).suggested_categories
            = some (cr.suggested_categories.getD []) ∧
         (applySuccess cats e text cr now).key_entities
            = some (cr.key_entities.getD []) ∧
         (applySuccess cats e text cr now).summary = cr.summary ∧
         (applySuccess cats e text cr now).processed_at = some now) := by
    intro e
    simp only [applySuccess]
    cases cr.category_name with
    | none => simp
    | some n =>
        cases hfc : findCategoryByName cats n <;> simp [hfc]
  have hmain := hfields (setProcessing d)
  have herr : (setProcessing d).processing_error = none := h
  simp only [process_document_async] at *
  refine ⟨hmain.1, herr ▸ hmain.2.1, hmain.2.2.1, hmain.2.2.2.1,
    hmain.2.2.2.2.1, hmain.2.2.2.2.2.1, hmain.2.2.2.2.2.2.1,
    hmain.2.2.2.2.2.2.2.1, hmain.2.2.2.2.2.2.2.2, ?_⟩
  intro c hc hcomp
  simp only [processCommits, process_document_async, List.mem_cons,
    List.mem_singleton, List.not_mem_nil, or_false] at hc
  cases hc with
  | inl hfirst =>
      exfalso
      rw [hfirst] at hcomp
      exact Status.noConfusion hcomp
  | inr hlast => exact hlast

/-- C3 witness: the atomic-completion theorem evaluated on a concrete
pending document with no prior error and a fully-populated oracle
result. -/
theorem C3_completed_commit_atomic_witness :
    (sampleDoc .pending none).processing_error = none ∧
    ((process_document_async [] (sampleDoc .pending none)
        (.success "hello" sampleCR 5)).processing_status = Status.completed ∧
     (process_document_async [] (sampleDoc .pending none)
        (.success "hello" sampleCR 5)).processing_error = none ∧
     (process_document_async [] (sampleDoc .pending none)
        (.success "hello" sampleCR 5)).extracted_text = some "hello" ∧
     (process_document_async [] (sampleDoc .pending none)
        (.success "hello" sampleCR 5)).classification_confidence
        = some (sampleCR.confidence.getD 0) ∧
     (process_document_async [] (sampleDoc .pending none)
        (.success "hello" sampleCR 5)).classification_reasoning
        = sampleCR.reasoning ∧
     (process_document_async [] (sampleDoc .pending none)
        (.success "hello" sampleCR 5)).suggested_categories
        = some (sampleCR.suggested_categories.getD []) ∧
     (process_document_async [] (sampleDoc .pending none)
        (.success "hello" sampleCR 5)).key_entities
        = some (sampleCR.key_entities.getD []) ∧
     (process_document_async [] (sampleDoc .pending none)
        (.success "hello" sampleCR 5)).summary = sampleCR.summary ∧
     (process_document_async [] (sampleDoc .pending none)
        (.success "hello" sampleCR 5)).processed_at = some 5 ∧
     ∀ c ∈ processCommits [] (sampleDoc .pending none)
        (.success "hello" sampleCR 5),
       c.processing_status = Status.completed →
       c = process_document_async [] (sampleDoc .pending none)
             (.success "hello" sampleCR 5)) :=
  ⟨by decide,
   C3_completed_commit_atomic [] (sampleDoc .pending none) "hello" sampleCR 5
     (by decide)⟩

/-! ## C4 — failure leaves classification fields untouched -/

/-- C4: any exception during extraction or classification ends the run
with status failed and the raised message recorded in processing_error
(non-null), while the six classification fields — category reference,
confidence, reasoning, suggested categories, entities, summary — keep
exactly the values they had before the run. -/
theorem C4_failure_preserves_classification (cats : List Category)
    (d : Document) (err text : String) :
    ((process_document_async cats d (.extractFails err)).processing_status
        = Status.failed ∧
     (process_document_async cats d (.extractFails err)).processing_error
        = some err ∧
     classificationFields (process_document_async cats d (.extractFails err))
        = classificationFields d) ∧
    ((process_document_async cats d
        (.classifyFails text err)).processing_status = Status.failed ∧
     (process_document_async cats d
        (.classifyFails text err)).processing_error = some err ∧
     classificationFields
        (process_document_async cats d (.classifyFails text err))
        = classificationFields d) := by
  refine ⟨⟨rfl, rfl, ?_⟩, ⟨rfl, rfl, ?_⟩⟩ <;>
    simp [process_document_async, applyFailure, setProcessing,
      classificationFields]

/-! ## C6 — empty filtered set short-circuits the query -/

/-- C6: when the filtered set of the requesting user's completed
documents is empty, the query route returns the fixed no-documents
response — confidence 0.0 and an empty source list — and the query
oracle is never invoked. -/
theorem C6_empty_query_short_circuit (cats : List Category)
    (docs : List Document) (uid : Nat) (req : QueryRequest)
    (oracle : QueryCall → LLMQueryResponse)
    (h : queryFilteredDocs docs uid req = []) :
    query_documents cats docs uid req oracle = (noDocsResponse req.query, none) ∧
    (noDocsResponse req.query).confidence_score = 0 ∧
    (noDocsResponse req.query).source_documents = [] := by
  refine ⟨?_, rfl, rfl⟩
  simp [query_documents, h]

/-- C6 witness: the short-circuit theorem evaluated on an empty document
table. -/
theorem C6_empty_query_short_circuit_witness :
    queryFilteredDocs [] 7 sampleReq = [] ∧
    (query_documents sampleCats [] 7 sampleReq (fun _ => emptyLLMReply)
        = (noDocsResponse sampleReq.query, none) ∧
     (noDocsResponse sampleReq.query).confidence_score = 0 ∧
     (noDocsResponse sampleReq.query).source_documents = []) :=
  ⟨by decide,
   C6_empty_query_short_circuit sampleCats [] 7 sampleReq
     (fun _ => emptyLLMReply) (by decide)⟩

/-- Helper: the shape of the query route's output on a non-empty
filtered set. -/
lemma query_documents_of_nonempty (cats : List Category)
    (docs : List Document) (uid : Nat) (req : QueryRequest)
    (oracle : QueryCall → LLMQueryResponse)
    (hb : (queryFilteredDocs docs uid req).isEmpty = false) :
    query_documents cats docs uid req oracle =
      ({ query := req.query
         response := (oracle (QueryCall.mk req.query
           ((contextDocs docs uid req).map contextChunk))).answer.getD
             "No response generated"
         confidence_score := (oracle (QueryCall.mk req.query
           ((contextDocs docs uid req).map contextChunk))).confidence.getD 0
         source_documents := (contextDocs docs uid req).map (sourceOfDoc cats)
         reasoning := (oracle (QueryCall.mk req.query
           ((contextDocs docs uid req).map contextChunk))).reasoning
         suggestions := (oracle (QueryCall.mk req.query
           ((contextDocs docs uid req).map contextChunk))).suggestions.getD [] },
       some (QueryCall.mk req.query
         ((contextDocs docs uid req).map contextChunk))) := by
  simp only [query_documents, hb, Bool.false_eq_true, if_false]

/-! ## C7 — context caps and parallel source citations -/

/-- C7: on a non-empty filtered set, the query route builds its oracle
context from at most 5 documents, takes at most the first 2000
characters of each used document's extracted text, and returns exactly
one source citation per context document used, in the same order as the
context list. -/
theorem C7_context_caps (cats : List Category) (docs : List Document)
    (uid : Nat) (req : QueryRequest)
    (oracle : QueryCall → LLMQueryResponse)
    (h : queryFilteredDocs docs uid req ≠ []) :
    (query_documents cats docs uid req oracle).2
        = some { question := req.query
                 context := (contextDocs docs uid req).map contextChunk } ∧
    (query_documents cats docs uid req oracle).1.source_documents
        = (contextDocs docs uid req).map (sourceOfDoc cats) ∧
    (query_documents cats docs uid req oracle).1.source_documents.length
        = ((contextDocs docs uid req).map contextChunk).length ∧
    (contextDocs docs uid req).length ≤ 5 ∧
    (∀ d ∈ contextDocs docs uid req,
      (contextChunk d).length ≤ 2000 ∧
      contextChunk d = strSlice (d.extracted_text.getD "") 2000) := by
  have hb : (queryFilteredDocs docs uid req).isEmpty = false := by
    cases hq : queryFilteredDocs docs uid req with
    | nil => exact absurd hq h
    | cons a l => rfl
  rw [query_documents_of_nonempty cats docs uid req oracle hb]
  refine ⟨rfl, rfl, by simp, ?_, ?_⟩
  · calc (contextDocs docs uid req).length
        ≤ ((queryFilteredDocs docs uid req).take 5).length :=
          List.length_filter_le _ _
      _ ≤ 5 := List.length_take_le _ _
  · intro d _
    refine ⟨?_, rfl⟩
    show (strSlice (d.extracted_text.getD "") 2000).length ≤ 2000
    have hl : (strSlice (d.extracted_text.getD "") 2000).length
        = ((d.extracted_text.getD "").data.take 2000).length := rfl
    rw [hl]
    exact List.length_take_le _ _

/-- C7 witness: the context-caps theorem evaluated on a table with one
completed document. -/
theorem C7_context_caps_witness :
    queryFilteredDocs [sampleCompletedDoc] 7 sampleReq ≠ [] ∧
    ((query_documents sampleCats [sampleCompletedDoc] 7 sampleReq
        (fun _ => emptyLLMReply)).2
        = some { question := sampleReq.query
                 context := (contextDocs [sampleCompletedDoc] 7 sampleReq).map
                   contextChunk } ∧
     (query_documents sampleCats [sampleCompletedDoc] 7 sampleReq
        (fun _ => emptyLLMReply)).1.source_documents
        = (contextDocs [sampleCompletedDoc] 7 sampleReq).map
            (sourceOfDoc sampleCats) ∧
     (query_documents sampleCats [sampleCompletedDoc] 7 sampleReq
        (fun _ => emptyLLMReply)).1.source_documents.length
        = ((contextDocs [sampleCompletedDoc] 7 sampleReq).map
            contextChunk).length ∧
     (contextDocs [sampleCompletedDoc] 7 sampleReq).length ≤ 5 ∧
     (∀ d ∈ contextDocs [sampleCompletedDoc] 7 sampleReq,
       (contextChunk d).length ≤ 2000 ∧
       contextChunk d = strSlice (d.extracted_text.getD "") 2000)) :=
  ⟨by decide,
   C7_context_caps sampleCats [sampleCompletedDoc] 7 sampleReq
     (fun _ => emptyLLMReply) (by decide)⟩

/-! ## C8 — missing oracle fields are defaulted, never an error -/

/-- C8: for every query-oracle reply, with any subset of its fields
absent, the query route still produces a structurally complete response:
the answer falls back to the fixed text, the confidence to 0.0 and the
suggestions to the empty list, and the mapping is total (no error is
possible). -/
theorem C8_oracle_reply_defaults (cats : List Category)
    (docs : List Document) (uid : Nat) (req : QueryRequest)
    (r : LLMQueryResponse)
    (h : queryFilteredDocs docs uid req ≠ []) :
    (query_documents cats docs uid req (fun _ => r)).1.query = req.query ∧
    (query_documents cats docs uid req (fun _ => r)).1.response
        = r.answer.getD "No response generated" ∧
    (query_documents cats docs uid req (fun _ => r)).1.confidence_score
        = r.confidence.getD 0 ∧
    (query_documents cats docs uid req (fun _ => r)).1.reasoning
        = r.reasoning ∧
    (query_documents cats docs uid req (fun _ => r)).1.suggestions
        = r.suggestions.getD [] ∧
    (r.answer = none →
      (query_documents cats docs uid req (fun _ => r)).1.response
        = "No response generated") ∧
    (r.confidence = none →
      (query_documents cats docs uid req (fun _ => r)).1.confidence_score
        = 0) ∧
    (r.suggestions = none →
      (query_documents cats docs uid req (fun _ => r)).1.suggestions = []) := by
  have hb : (queryFilteredDocs docs uid req).isEmpty = false := by
    cases hq : queryFilteredDocs docs uid req with
    | nil => exact absurd hq h
    | cons a l => rfl
  rw [query_documents_of_nonempty cats docs uid req (fun _ => r) hb]
  refine ⟨rfl, rfl, rfl, rfl, rfl, ?_, ?_, ?_⟩ <;>
    (intro hnone; simp [hnone])

/-- C8 witness: the defaulting theorem evaluated on a reply missing
every field. -/
theorem C8_oracle_reply_defaults_witness :
    queryFilteredDocs [sampleCompletedDoc] 7 sampleReq ≠ [] ∧
    ((query_documents sampleCats [sampleCompletedDoc] 7 sampleReq
        (fun _ => emptyLLMReply)).1.query = sampleReq.query ∧
     (query_documents sampleCats [sampleCompletedDoc] 7 sampleReq
        (fun _ => emptyLLMReply)).1.response
        = emptyLLMReply.answer.getD "No response generated" ∧
     (query_documents sampleCats [sampleCompletedDoc] 7 sampleReq
        (fun _ => emptyLLMReply)).1.confidence_score
        = emptyLLMReply.confidence.getD 0 ∧
     (query_documents sampleCats [sampleCompletedDoc] 7 sampleReq
        (fun _ => emptyLLMReply)).1.reasoning = emptyLLMReply.reasoning ∧
     (query_documents sampleCats [sampleCompletedDoc] 7 sampleReq
        (fun _ => emptyLLMReply)).1.suggestions
        = emptyLLMReply.suggestions.getD [] ∧
     (emptyLLMReply.answer = none →
       (query_documents sampleCats [sampleCompletedDoc] 7 sampleReq
          (fun _ => emptyLLMReply)).1.response = "No response generated") ∧
     (emptyLLMReply.confidence = none →
       (query_documents sampleCats [sampleCompletedDoc] 7 sampleReq
          (fun _ => emptyLLMReply)).1.confidence_score = 0) ∧
     (emptyLLMReply.suggestions = none →
       (query_documents sampleCats [sampleCompletedDoc] 7 sampleReq
          (fun _ => emptyLLMReply)).1.suggestions = [])) :=
  ⟨by decide,
   C8_oracle_reply_defaults sampleCats [sampleCompletedDoc] 7 sampleReq
     emptyLLMReply (by decide)⟩

/-! ## C5 — bulk upload tolerates partial failure -/

/-- Helper: the four components of the bulk loop, characterized as
order-preserving projections of the input list. -/
lemma bulkLoop_components (files : List BulkFile) :
    (bulkLoop files).1 = files.filterMap okName ∧
    (bulkLoop files).2.1 = files.filterMap failEntry ∧
    (bulkLoop files).2.2.1 = files.filterMap okId ∧
    (bulkLoop files).2.2.2 = files.filterMap okId := by
  induction files with
  | nil => exact ⟨rfl, rfl, rfl, rfl⟩
  | cons f rest ih =>
      obtain ⟨ih1, ih2, ih3, ih4⟩ := ih
      cases hb : f.behavior with
      | valid i =>
          refine ⟨?_, ?_, ?_, ?_⟩ <;>
            simp [bulkLoop, hb, okName, failEntry, okId, ih1, ih2, ih3, ih4]
      | invalid r =>
          refine ⟨?_, ?_, ?_, ?_⟩ <;>
            simp [bulkLoop, hb, okName, failEntry, okId, ih1, ih2, ih3, ih4]
      | raises e =>
          refine ⟨?_, ?_, ?_, ?_⟩ <;>
            simp [bulkLoop, hb, okName, failEntry, okId, ih1, ih2, ih3, ih4]

/-- Helper: every file contributes to exactly one of uploaded_files and
failed_files, so the two lengths sum to the batch size; the failing
side counts exactly the failing files. -/
lemma bulkLoop_counts (files : List BulkFile) :
    (bulkLoop files).1.length + (bulkLoop files).2.1.length
      = files.length ∧
    (bulkLoop files).2.1.length
      = files.countP (fun f => f.behavior.fails) := by
  induction files with
  | nil => exact ⟨rfl, rfl⟩
  | cons f rest ih =>
      obtain ⟨ih1, ih2⟩ := ih
      cases hb : f.behavior with
      | valid i =>
          have h1 : (bulkLoop (f :: rest)).1 = f.filename :: (bulkLoop rest).1 := by
            simp [bulkLoop, hb]
          have h2 : (bulkLoop (f :: rest)).2.1 = (bulkLoop rest).2.1 := by
            simp [bulkLoop, hb]
          have h3 : List.countP (fun g => g.behavior.fails) (f :: rest)
              = List.countP (fun g => g.behavior.fails) rest := by
            simp [List.countP_cons, hb, FileBehavior.fails]
          refine ⟨?_, ?_⟩
          · simp only [h1, h2, List.length_cons]; omega
          · rw [h2, h3]; exact ih2
      | invalid r =>
          have h1 : (bulkLoop (f :: rest)).1 = (bulkLoop rest).1 := by
            simp [bulkLoop, hb]
          have h2 : (bulkLoop (f :: rest)).2.1
              = (f.filename, r) :: (bulkLoop rest).2.1 := by
            simp [bulkLoop, hb]
          have h3 : List.countP (fun g => g.behavior.fails) (f :: rest)
              = List.countP (fun g => g.behavior.fails) rest + 1 := by
            simp [List.countP_cons, hb, FileBehavior.fails]
          refine ⟨?_, ?_⟩
          · simp only [h1, h2, List.length_cons]; omega
          · simp only [h2, h3, List.length_cons, ih2]
      | raises e =>
          have h1 : (bulkLoop (f :: rest)).1 = (bulkLoop rest).1 := by
            simp [bulkLoop, hb]
          have h2 : (bulkLoop (f :: rest)).2.1
              = (f.filename, e) :: (bulkLoop rest).2.1 := by
            simp [bulkLoop, hb]
          have h3 : List.countP (fun g => g.behavior.fails) (f :: rest)
              = List.countP (fun g => g.behavior.fails) rest + 1 := by
            simp [List.countP_cons, hb, FileBehavior.fails]
          refine ⟨?_, ?_⟩
          · simp only [h1, h2, List.length_cons]; omega
          · simp only [h2, h3, List.length_cons, ih2]

/-- C5: for every ordered batch, the bulk route reports success_count +
failure_count equal to the batch size, failure_count counting exactly
the files that fail validation or persistence; the uploaded and failed
lists are order-preserving projections of the input (so a failure at
any position never prevents the other files from being attempted); and
every non-failing file is both persisted and scheduled. -/
theorem C5_bulk_partial_failure (files : List BulkFile) :
    (upload_documents_bulk files).1.success_count
        + (upload_documents_bulk files).1.failure_count
        = (upload_documents_bulk files).1.total_files ∧
    (upload_documents_bulk files).1.total_files = files.length ∧
    (upload_documents_bulk files).1.failure_count
        = files.countP (fun f => f.behavior.fails) ∧
    (upload_documents_bulk files).1.uploaded_files
        = files.filterMap okName ∧
    (upload_documents_bulk files).1.failed_files
        = files.filterMap failEntry ∧
    (upload_documents_bulk files).1.processing_jobs
        = files.filterMap okId ∧
    (upload_documents_bulk files).2
        = (upload_documents_bulk files).1.processing_jobs ∧
    (∀ f ∈ files, ∀ i, f.behavior = .valid i →
      i ∈ (upload_documents_bulk files).1.processing_jobs ∧
      i ∈ (upload_documents_bulk files).2) := by
  obtain ⟨hc1, hc2⟩ := bulkLoop_counts files
  obtain ⟨hu, hf, hj, ht⟩ := bulkLoop_components files
  refine ⟨hc1, rfl, hc2, hu, hf, hj, ?_, ?_⟩
  · show (bulkLoop files).2.2.2 = (bulkLoop files).2.2.1
    rw [hj, ht]
  · intro f hf' i hbi
    have hmem : i ∈ files.filterMap okId := by
      rw [List.mem_filterMap]
      exact ⟨f, hf', by simp [okId, hbi]⟩
    constructor
    · show i ∈ (bulkLoop files).2.2.1
      rw [hj]; exact hmem
    · show i ∈ (bulkLoop files).2.2.2
      rw [ht]; exact hmem

/-- C5 witness: the bulk theorem evaluated on a concrete batch whose
first and last files fail while the middle one succeeds. -/
theorem C5_bulk_partial_failure_witness :
    (BulkFile.mk "a.pdf" (.invalid "File too large")) ∈
      [BulkFile.mk "a.pdf" (.invalid "File too large"),
       BulkFile.mk "b.pdf" (.valid 42),
       BulkFile.mk "c.pdf" (.raises "disk full")] ∧
    ((upload_documents_bulk
        [BulkFile.mk "a.pdf" (.invalid "File too large"),
         BulkFile.mk "b.pdf" (.valid 42),
         BulkFile.mk "c.pdf" (.raises "disk full")]).1.success_count = 1 ∧
     (upload_documents_bulk
        [BulkFile.mk "a.pdf" (.invalid "File too large"),
         BulkFile.mk "b.pdf" (.valid 42),
         BulkFile.mk "c.pdf" (.raises "disk full")]).1.failure_count = 2 ∧
     (upload_documents_bulk
        [BulkFile.mk "a.pdf" (.invalid "File too large"),
         BulkFile.mk "b.pdf" (.valid 42),
         BulkFile.mk "c.pdf" (.raises "disk full")]).1.uploaded_files
        = ["b.pdf"] ∧
     (upload_documents_bulk
        [BulkFile.mk "a.pdf" (.invalid "File too large"),
         BulkFile.mk "b.pdf" (.valid 42),
         BulkFile.mk "c.pdf" (.raises "disk full")]).1.failed_files
        = [("a.pdf", "File too large"), ("c.pdf", "disk full")] ∧
     (upload_documents_bulk
        [BulkFile.mk "a.pdf" (.invalid "File too large"),
         BulkFile.mk "b.pdf" (.valid 42),
         BulkFile.mk "c.pdf" (.raises "disk full")]).1.processing_jobs
        = [42] ∧
     42 ∈ (upload_documents_bulk
        [BulkFile.mk "a.pdf" (.invalid "File too large"),
         BulkFile.mk "b.pdf" (.valid 42),
         BulkFile.mk "c.pdf" (.raises "disk full")]).2) := by
  refine ⟨by decide, by decide, by decide, by decide, by decide, by decide,
    ?_⟩
  have h := (C5_bulk_partial_failure
    [BulkFile.mk "a.pdf" (.invalid "File too large"),
     BulkFile.mk "b.pdf" (.valid 42),
     BulkFile.mk "c.pdf" (.raises "disk full")]).2.2.2.2.2.2.2
    (BulkFile.mk "b.pdf" (.valid 42)) (by decide) 42 (by decide)
  exact h.2

/-! ## C9 — category seeding is idempotent by name -/

/-- Helper: any property already satisfied somewhere in the table keeps
being satisfied somewhere after seeding (seeding only appends rows). -/
lemma seedLoop_any_mono (ds : List CategorySeed) (db : List Category)
    (n : Nat) (p : Category → Bool) (h : db.any p = true) :
    ((seedLoop ds db n).1).any p = true := by
  induction ds generalizing db n with
  | nil => simpa [seedLoop] using h
  | cons c rest ih =>
      by_cases hc : db.any (fun k => k.name == c.name) = true
      · simp only [seedLoop]; rw [if_pos hc]; exact ih db n h
      · simp only [seedLoop]; rw [if_neg hc]
        apply ih
        rw [List.any_append]
        simp [h]

/-- Helper: after one seeding pass, every seed name occurs in the
table. -/
lemma seedLoop_covers (ds : List CategorySeed) (db : List Category)
    (n : Nat) :
    ∀ c ∈ ds, ((seedLoop ds db n).1).any (fun k => k.name == c.name)
      = true := by
  induction ds generalizing db n with
  | nil => intro c hc; exact absurd hc (List.not_mem_nil c)
  | cons c0 rest ih =>
      intro c hc
      rcases List.mem_cons.mp hc with hceq | hcrest
      · subst hceq
        by_cases hc0 : db.any (fun k => k.name == c.name) = true
        · simp only [seedLoop]; rw [if_pos hc0]
          exact seedLoop_any_mono rest db n _ hc0
        · simp only [seedLoop]; rw [if_neg hc0]
          apply seedLoop_any_mono
          rw [List.any_append]
          simp
      · by_cases hc0 : db.any (fun k => k.name == c0.name) = true
        · simp only [seedLoop]; rw [if_pos hc0]; exact ih db n c hcrest
        · simp only [seedLoop]; rw [if_neg hc0]; exact ih _ _ c hcrest

/-- Helper: seeding a table that already covers every seed name changes
nothing. -/
lemma seedLoop_eq_self (ds : List CategorySeed) (db : List Category)
    (n : Nat)
    (h : ∀ c ∈ ds, db.any (fun k => k.name == c.name) = true) :
    seedLoop ds db n = (db, n) := by
  induction ds with
  | nil => rfl
  | cons c0 rest ih =>
      have hc0 := h c0 (List.mem_cons_self c0 rest)
      simp only [seedLoop]; rw [if_pos hc0]
      exact ih (fun c hc => h c (List.mem_cons_of_mem c0 hc))

/-- Helper: seeding never adds a row whose name is already present: the
number of rows with a given already-present name is unchanged. -/
lemma seedLoop_countP (ds : List CategorySeed) (db : List Category)
    (n : Nat) (nm : String)
    (h : db.any (fun k => k.name == nm) = true) :
    ((seedLoop ds db n).1).countP (fun k => k.name == nm)
      = db.countP (fun k => k.name == nm) := by
  induction ds generalizing db n with
  | nil => simp [seedLoop]
  | cons c rest ih =>
      by_cases hc : db.any (fun k => k.name == c.name) = true
      · simp only [seedLoop]; rw [if_pos hc]; exact ih db n h
      · simp only [seedLoop]; rw [if_neg hc]
        have hcnm : (c.name == nm) = false := by
          cases hb2 : (c.name == nm) with
          | false => rfl
          | true =>
              exfalso
              have he : c.name = nm := eq_of_beq hb2
              apply hc
              have hgoal : db.any (fun k => k.name == c.name) = true := by
                rw [he]; exact h
              exact hgoal
        have hany : (db ++ [Category.mk n c.name (some c.description)
            c.keywords]).any (fun k => k.name == nm) = true := by
          rw [List.any_append]; simp [h]
        rw [ih _ _ hany]
        rw [List.countP_append]
        simp [hcnm]

/-- C9: seeding against a table that already contains a category of a
given name adds no new category of that name, and running the seed a
second time (with any fresh-id counter) changes nothing, so the set of
category names after two runs equals the set after one. -/
theorem C9_seed_idempotent (db : List Category) (n m : Nat) (nm : String)
    (h : db.any (fun k => k.name == nm) = true) :
    (init_document_categories db n).countP (fun k => k.name == nm)
        = db.countP (fun k => k.name == nm) ∧
    init_document_categories (init_document_categories db n) m
        = init_document_categories db n ∧
    (init_document_categories (init_document_categories db n) m).map
        Category.name
      = (init_document_categories db n).map Category.name := by
  have hid : init_document_categories (init_document_categories db n) m
      = init_document_categories db n := by
    show (seedLoop default_categories
        (init_document_categories db n) m).1
      = init_document_categories db n
    rw [seedLoop_eq_self default_categories (init_document_categories db n) m
      (fun c hc => seedLoop_covers default_categories db n c hc)]
  exact ⟨seedLoop_countP default_categories db n nm h, hid, by rw [hid]⟩

/-- C9 witness: the idempotence theorem evaluated on the sample table,
which already holds a category named Formation. -/
theorem C9_seed_idempotent_witness :
    sampleCats.any (fun k => k.name == "Formation") = true ∧
    ((init_document_categories sampleCats 2).countP
        (fun k => k.name == "Formation")
        = sampleCats.countP (fun k => k.name == "Formation") ∧
     init_document_categories (init_document_categories sampleCats 2) 100
        = init_document_categories sampleCats 2 ∧
     (init_document_categories (init_document_categories sampleCats 2)
        100).map Category.name
        = (init_document_categories sampleCats 2).map Category.name) :=
  ⟨by decide, C9_seed_idempotent sampleCats 2 100 "Formation" (by decide)⟩

/-! ## C10 — the status route gates classification_result on a resolved
category -/

/-- C10: the status route returns a non-null classification_result
exactly when the document is completed and its category reference
resolves against the category table; and a document completed by a run
whose oracle category matched no known category (starting from a null
category reference) reports a null classification_result at the status
boundary even though its confidence, reasoning, entities and summary
columns are populated. -/
theorem C10_status_classification_gate (cats : List Category)
    (d dd : Document) (text : String) (cr : ClassificationResult)
    (now : Nat) (n rs ss : String)
    (h1 : dd.category_id = none) (h2 : cr.category_name = some n)
    (h3 : findCategoryByName cats n = none)
    (h4 : cr.reasoning = some rs) (h5 : cr.summary = some ss) :
    ((get_document_status cats d).classification_result.isSome = true ↔
      (d.processing_status = Status.completed ∧
       (resolveCategory cats d).isSome = true)) ∧
    (get_document_status cats
        (process_document_async cats dd
          (.success text cr now))).classification_result = none ∧
    (process_document_async cats dd
        (.success text cr now)).processing_status = Status.completed ∧
    (process_document_async cats dd
        (.success text cr now)).classification_confidence
        = some (cr.confidence.getD 0) ∧
    (process_document_async cats dd
        (.success text cr now)).classification_reasoning = some rs ∧
    (process_document_async cats dd
        (.success text cr now)).key_entities = some (cr.key_entities.getD []) ∧
    (process_document_async cats dd
        (.success text cr now)).summary = some ss := by
  have hcat : (process_document_async cats dd
      (.success text cr now)).category_id = none := by
    simp [process_document_async, applySuccess, setProcessing, h1, h2, h3]
  have hstat : (process_document_async cats dd
      (.success text cr now)).processing_status = Status.completed := by
    simp [process_document_async, applySuccess, setProcessing, h2, h3]
  refine ⟨?_, ?_, hstat, ?_, ?_, ?_, ?_⟩
  · simp only [get_document_status]
    by_cases hc : d.processing_status = Status.completed ∧
        (resolveCategory cats d).isSome = true
    · simp [hc]
    · simp [hc]
  · simp [get_document_status, resolveCategory, hcat]
  · simp [process_document_async, applySuccess, setProcessing, h2, h3]
  · simp [process_document_async, applySuccess, setProcessing, h2, h3, h4]
  · simp [process_document_async, applySuccess, setProcessing, h2, h3]
  · simp [process_document_async, applySuccess, setProcessing, h2, h3, h5]

/-- C10 witness: the gating theorem evaluated on the sample category
table, the sample completed document, and a run whose oracle proposed
an unknown category. -/
theorem C10_status_classification_gate_witness :
    (sampleDoc .pending none).category_id = none ∧
    sampleCRUnknown.category_name = some "Unknown Kind" ∧
    findCategoryByName sampleCats "Unknown Kind" = none ∧
    sampleCRUnknown.reasoning = some "looks like bylaws" ∧
    sampleCRUnknown.summary = some "bylaws of Acme" ∧
    (((get_document_status sampleCats
        sampleCompletedDoc).classification_result.isSome = true ↔
      (sampleCompletedDoc.processing_status = Status.completed ∧
       (resolveCategory sampleCats sampleCompletedDoc).isSome = true)) ∧
     (get_document_status sampleCats
        (process_document_async sampleCats (sampleDoc .pending none)
          (.success "hello" sampleCRUnknown 5))).classification_result
        = none ∧
     (process_document_async sampleCats (sampleDoc .pending none)
        (.success "hello" sampleCRUnknown 5)).processing_status
        = Status.completed ∧
     (process_document_async sampleCats (sampleDoc .pending none)
        (.success "hello" sampleCRUnknown 5)).classification_confidence
        = some (sampleCRUnknown.confidence.getD 0) ∧
     (process_document_async sampleCats (sampleDoc .pending none)
        (.success "hello" sampleCRUnknown 5)).classification_reasoning
        = some "looks like bylaws" ∧
     (process_document_async sampleCats (sampleDoc .pending none)
        (.success "hello" sampleCRUnknown 5)).key_entities
        = some (sampleCRUnknown.key_entities.getD []) ∧
     (process_document_async sampleCats (sampleDoc .pending none)
        (.success "hello" sampleCRUnknown 5)).summary
        = some "bylaws of Acme") :=
  ⟨by decide, by decide, by decide, by decide, by decide,
   C10_status_classification_gate sampleCats sampleCompletedDoc
     (sampleDoc .pending none) "hello" sampleCRUnknown 5 "Unknown Kind"
     "looks like bylaws" "bylaws of Acme"
     (by decide) (by decide) (by decide) (by decide) (by decide)⟩

end StartupLaw
